import Mathlib

/-
Verification of the discipline-app timer core (src/main.py).

The program is a single-file Flet application.  Its behavioural core is a
mutable `DisciplineApp` object (is_working, worked_seconds, daily_target,
current_task_focus, an sqlite log table) together with the UI closures in
`main` that mutate it (`run_timer`, `start_work`, `on_target_change`,
`set_focus_task`, `delete_task`, `add_task`, `handle_yes`, `handle_no`).
We embed that state as a record `AppState`, each handler as a pure
function on it, and a wall-clock instant as a natural number handed to the
operations that read `datetime.datetime.now()`.
-/

namespace Discipline

/-- `DEFAULT_TARGET_HOURS` from src/main.py line 21. -/
def DEFAULT_TARGET_HOURS : Nat := 10

/-- `CHECK_IN_INTERVAL` from src/main.py line 22: 15 minutes in seconds. -/
def CHECK_IN_INTERVAL : Nat := 15 * 60

/-- One row of the `hourly_logs` sqlite table (src/main.py lines 42-49). -/
structure LogEntry where
  id : Nat
  timestamp : Nat
  activity : String
  productivity_score : Nat
  deriving DecidableEq

/-- The `hourly_logs` table: its rows in insertion order together with the
sqlite AUTOINCREMENT sequence (the largest id ever assigned; ids start
at 1 and each insert uses the next value). -/
structure LogStore where
  entries : List LogEntry
  seq : Nat
  deriving DecidableEq

/-- The table right after `create_tables` on a fresh database file. -/
def LogStore.empty : LogStore := { entries := [], seq := 0 }

/-- `DisciplineApp.log_activity` (src/main.py lines 52-56): inserts one row
with `timestamp = datetime.datetime.now()` (passed here as `t`), the given
activity text and score; sqlite assigns the next AUTOINCREMENT id. -/
def log_activity (st : LogStore) (t : Nat) (activity_text : String) (score : Nat) : LogStore :=
  { entries := st.entries ++
      [{ id := st.seq + 1, timestamp := t, activity := activity_text,
         productivity_score := score }],
    seq := st.seq + 1 }

/-- One row of the task checklist: the task text and its checkbox state
(src/main.py lines 143-151; the checkbox starts unchecked and is read by
nothing else). -/
structure Task where
  text : String
  done : Bool
  deriving DecidableEq

/-- The whole mutable state the claims are about: the `DisciplineApp`
fields plus the UI controls the handlers read or write (`timer_text`,
`progress_bar`, the check-in dialog's open flag, the two text fields, the
task column and the focus label). -/
structure AppState where
  is_working : Bool
  worked_seconds : Nat
  daily_target : Nat
  current_task_focus : String
  focus_label : String
  timer_text : String
  progress_bar : ℚ
  dialog_open : Bool
  note_input : String
  task_input : String
  tasks : List Task
  store : LogStore
  deriving DecidableEq

/-- The focus label text built in src/main.py lines 101 and 123. -/
def focusLabelText (name : String) : String :=
  "🎯 التركيز الحالي: " ++ name

/-- The state right after `DisciplineApp.__init__` and the UI construction
in `main` (src/main.py lines 26-36, 98-119, 176). -/
def initState : AppState :=
  { is_working := false
    worked_seconds := 0
    daily_target := DEFAULT_TARGET_HOURS
    current_task_focus := "General Work"
    focus_label := focusLabelText "General Work"
    timer_text := "00:00:00"
    progress_bar := 0
    dialog_open := false
    note_input := ""
    task_input := ""
    tasks := []
    store := LogStore.empty }

/-- Python `"{:02d}".format n`: the decimal digits of `n`, left-padded
with a zero to at least two characters. -/
def pad2 (n : Nat) : String :=
  if n < 10 then "0" ++ toString n else toString n

/-- The timer display string of src/main.py lines 231-233:
`mins, secs = divmod(ws, 60)` then `hours, mins = divmod(mins, 60)`,
rendered `"{:02d}:{:02d}:{:02d}"`. -/
def formatHMS (ws : Nat) : String :=
  pad2 (ws / 60 / 60) ++ ":" ++ pad2 (ws / 60 % 60) ++ ":" ++ pad2 (ws % 60)

/-- One iteration of the `run_timer` loop body (src/main.py lines 229-246)
when it runs, i.e. when `is_working` holds; when `is_working` is false the
`while` guard fails and the body never executes.  Returns the new state
and whether the check-in dialog was opened by the guarded block at
lines 238-240 (the emitted check-in event). -/
def tick (s : AppState) : AppState × Bool :=
  if s.is_working then
    let ws := s.worked_seconds + 1
    let checkin := (ws % CHECK_IN_INTERVAL == 0) && decide (0 < ws)
    ({ s with
        worked_seconds := ws
        timer_text := formatHMS ws
        progress_bar := min ((ws : ℚ) / ((s.daily_target : ℚ) * 3600)) 1
        dialog_open := if checkin then true else s.dialog_open },
     checkin)
  else (s, false)

/-- `start_work` (src/main.py lines 249-268): flips `is_working`; the
other statements in both branches touch only presentation controls
(button label, colours, status text, the dropdown's disabled flag, which
mirrors `is_working`). -/
def toggle (s : AppState) : AppState :=
  if s.is_working = false then { s with is_working := true }
  else { s with is_working := false }

/-- The target hour values offered by `target_dropdown`
(src/main.py lines 80-86). -/
def ALLOWED_TARGETS : List Nat := [3, 5, 8, 10, 12]

/-- `on_target_change` (src/main.py lines 91-93) together with the
dropdown wiring that gates it: the dropdown only offers the options
3, 5, 8, 10 and 12 (lines 80-86) and is disabled exactly while
`is_working` holds (lines 259 and 267), so the change handler can only
fire, and assign `daily_target`, with an allowed value while not
working; any other attempt leaves the state untouched. -/
def set_target (s : AppState) (hours : Nat) : AppState :=
  if s.is_working = false ∧ hours ∈ ALLOWED_TARGETS then
    { s with daily_target := hours }
  else s

/-- `set_focus_task` (src/main.py lines 121-124): copies the task text
into `current_task_focus` and rebuilds the focus label. -/
def set_focus_task (s : AppState) (task_name : String) : AppState :=
  { s with
      current_task_focus := task_name
      focus_label := focusLabelText task_name }

/-- `delete_task` (src/main.py lines 126-128): removes the given row
control from `tasks_column.controls`, here by its position. -/
def delete_task (s : AppState) (i : Nat) : AppState :=
  { s with tasks := s.tasks.eraseIdx i }

/-- `add_task` (src/main.py lines 130-158): an empty `task_input` returns
immediately; otherwise one row with an unchecked checkbox is appended to
`tasks_column.controls` and the input is cleared. -/
def add_task (s : AppState) : AppState :=
  if s.task_input = "" then s
  else
    { s with
        tasks := s.tasks ++ [{ text := s.task_input, done := false }]
        task_input := "" }

/-- The note suffix of src/main.py lines 191 and 200:
`f" - ملاحظة: ..." if note_input.value else ""`. -/
def noteSuffix (note : String) : String :=
  if note = "" then "" else " - ملاحظة: " ++ note

/-- `handle_yes` (src/main.py lines 190-197): logs the affirmative answer
with score 1, clears the note field and closes the dialog. -/
def handle_yes (s : AppState) (t : Nat) : AppState :=
  { s with
      store := log_activity s.store t ("إجابة: نعم" ++ noteSuffix s.note_input) 1
      note_input := ""
      dialog_open := false }

/-- `handle_no` (src/main.py lines 199-206): logs the negative answer
with score 0, clears the note field and closes the dialog. -/
def handle_no (s : AppState) (t : Nat) : AppState :=
  { s with
      store := log_activity s.store t ("إجابة: لا" ++ noteSuffix s.note_input) 0
      note_input := ""
      dialog_open := false }

/-- The public operations the presentation layer can deliver, each
carrying the data the corresponding handler reads from outside the state
(`t` is the wall clock read by `datetime.datetime.now()`; `input_task`
and `input_note` model the user typing into the two text fields). -/
inductive Op where
  | toggle
  | tick
  | set_target (hours : Nat)
  | set_focus (task_name : String)
  | answer_yes (t : Nat)
  | answer_no (t : Nat)
  | add_task
  | input_task (txt : String)
  | input_note (txt : String)
  | delete_task (i : Nat)
  deriving DecidableEq

/-- Dispatch one operation to its handler. -/
def step (s : AppState) : Op → AppState
  | Op.toggle => toggle s
  | Op.tick => (tick s).1
  | Op.set_target hours => set_target s hours
  | Op.set_focus name => set_focus_task s name
  | Op.answer_yes t => handle_yes s t
  | Op.answer_no t => handle_no s t
  | Op.add_task => add_task s
  | Op.input_task txt => { s with task_input := txt }
  | Op.input_note txt => { s with note_input := txt }
  | Op.delete_task i => delete_task s i

/-- Run a sequence of operations. -/
def runOps : AppState → List Op → AppState
  | s, [] => s
  | s, o :: ops => runOps (step s o) ops

/-- The `worked_seconds` values at which a check-in event fires along a
run: a tick contributes the post-increment value exactly when the guard
of src/main.py line 238 opened the dialog. -/
def checkinValues : AppState → List Op → List Nat
  | _, [] => []
  | s, o :: ops =>
      (if o = Op.tick ∧ (tick s).2 = true then [(tick s).1.worked_seconds] else [])
        ++ checkinValues (step s o) ops

/-- A convenient concrete working state for witnesses. -/
def workingAt (w : Nat) : AppState :=
  { initState with is_working := true, worked_seconds := w }

/-! ### Helper lemmas -/

/-- A disabled tick (timer not working) changes nothing and fires nothing. -/
theorem tick_of_not_working (s : AppState) (h : s.is_working = false) :
    tick s = (s, false) := by
  simp [tick, h]

/-- The check-in guard of line 238, characterised. -/
theorem tick_fires_iff (s : AppState) :
    (tick s).2 = true ↔
      s.is_working = true ∧ (s.worked_seconds + 1) % CHECK_IN_INTERVAL = 0 ∧
        0 < s.worked_seconds + 1 := by
  by_cases h : s.is_working = true
  · simp [tick, h]
  · simp only [Bool.not_eq_true] at h
    simp [tick, h]

/-- A tick advances `worked_seconds` by one exactly while working. -/
theorem tick_worked_seconds (s : AppState) :
    (tick s).1.worked_seconds =
      if s.is_working = true then s.worked_seconds + 1 else s.worked_seconds := by
  by_cases h : s.is_working = true
  · simp [tick, h]
  · simp only [Bool.not_eq_true] at h
    simp [tick, h]

/-- No operation other than a working tick changes `worked_seconds`. -/
theorem step_worked_seconds (s : AppState) (o : Op) :
    (step s o).worked_seconds =
      if o = Op.tick ∧ s.is_working = true then s.worked_seconds + 1
      else s.worked_seconds := by
  cases o with
  | toggle =>
      simp only [step, toggle]
      split <;> simp
  | tick =>
      rw [step, tick_worked_seconds]
      by_cases h : s.is_working = true <;> simp [h]
  | set_target hours =>
      simp only [step, set_target]
      split <;> simp
  | set_focus name => simp [step, set_focus_task]
  | answer_yes t => simp [step, handle_yes]
  | answer_no t => simp [step, handle_no]
  | add_task =>
      simp only [step, add_task]
      split <;> simp
  | input_task txt => simp [step]
  | input_note txt => simp [step]
  | delete_task i => simp [step, delete_task]

/-- `worked_seconds` never decreases across one operation. -/
theorem step_worked_seconds_le (s : AppState) (o : Op) :
    s.worked_seconds ≤ (step s o).worked_seconds := by
  rw [step_worked_seconds]
  split <;> omega

/-- `worked_seconds` never decreases along any run. -/
theorem runOps_worked_seconds_le (ops : List Op) (s : AppState) :
    s.worked_seconds ≤ (runOps s ops).worked_seconds := by
  induction ops generalizing s with
  | nil => simp [runOps]
  | cons o ops ih =>
      exact le_trans (step_worked_seconds_le s o) (ih (step s o))

/-- Every fired check-in value lies strictly above the starting count. -/
theorem checkinValues_gt (ops : List Op) (s : AppState) :
    ∀ v ∈ checkinValues s ops, s.worked_seconds < v := by
  induction ops generalizing s with
  | nil => simp [checkinValues]
  | cons o ops ih =>
      intro v hv
      simp only [checkinValues, List.mem_append] at hv
      rcases hv with hv | hv
      · split at hv
        case isTrue h =>
          rcases h with ⟨ho, hf⟩
          simp only [List.mem_singleton] at hv
          have hw : s.is_working = true := (tick_fires_iff s).1 hf |>.1
          rw [hv, tick_worked_seconds, if_pos hw]
          omega
        case isFalse h => simp at hv
      · exact lt_of_le_of_lt (step_worked_seconds_le s o) (ih (step s o) v hv)

/-- The fired check-in values along a run are strictly increasing, so a
given multiple of the interval can fire at most once. -/
theorem checkinValues_pairwise (ops : List Op) (s : AppState) :
    (checkinValues s ops).Pairwise (· < ·) := by
  induction ops generalizing s with
  | nil => simp [checkinValues]
  | cons o ops ih =>
      simp only [checkinValues]
      split
      case isTrue h =>
        simp only [List.singleton_append, List.pairwise_cons]
        refine ⟨fun v hv => ?_, ih (step s o)⟩
        have := checkinValues_gt ops (step s o) v hv
        rw [h.1] at this
        exact this
      case isFalse h =>
        simpa using ih (step s o)

/-- Every fired check-in value is a positive multiple of the interval. -/
theorem checkinValues_multiple (ops : List Op) (s : AppState) :
    ∀ v ∈ checkinValues s ops, 0 < v ∧ v % CHECK_IN_INTERVAL = 0 := by
  induction ops generalizing s with
  | nil => simp [checkinValues]
  | cons o ops ih =>
      intro v hv
      simp only [checkinValues, List.mem_append] at hv
      rcases hv with hv | hv
      · split at hv
        case isTrue h =>
          rcases h with ⟨ho, hf⟩
          simp only [List.mem_singleton] at hv
          obtain ⟨hw, hm, hp⟩ := (tick_fires_iff s).1 hf
          rw [hv, tick_worked_seconds, if_pos hw]
          exact ⟨hp, hm⟩
        case isFalse h => simp at hv
      · exact ih (step s o) v hv

/-- `divmod` chaining: hours as computed at line 232 equal `ws / 3600`, and
the minutes digit equals `ws % 3600 / 60`. -/
theorem formatHMS_eq (ws : Nat) :
    formatHMS ws =
      pad2 (ws / 3600) ++ ":" ++ pad2 (ws % 3600 / 60) ++ ":" ++ pad2 (ws % 60) := by
  have h1 : ws / 60 / 60 = ws / 3600 := by
    have h := Nat.div_div_eq_div_mul ws 60 60
    norm_num at h
    exact h
  have h2 : ws / 60 % 60 = ws % 3600 / 60 := by
    have h := Nat.mod_mul_right_div_self ws 60 60
    norm_num at h
    exact h.symm
  rw [formatHMS, h1, h2]

/-- No operation removes or rewrites rows of `hourly_logs`: every step
leaves the existing entries as a prefix, in order. -/
theorem step_store_append (s : AppState) (o : Op) :
    ∃ tail, (step s o).store.entries = s.store.entries ++ tail := by
  cases o with
  | toggle =>
      refine ⟨[], ?_⟩
      simp only [List.append_nil, step, toggle]
      split <;> rfl
  | tick =>
      refine ⟨[], ?_⟩
      simp only [List.append_nil, step]
      by_cases h : s.is_working = true
      · simp [tick, h]
      · simp only [Bool.not_eq_true] at h
        simp [tick, h]
  | set_target hours =>
      refine ⟨[], ?_⟩
      simp only [List.append_nil, step, set_target]
      split <;> rfl
  | set_focus name => exact ⟨[], by simp [step, set_focus_task]⟩
  | answer_yes t =>
      exact ⟨[{ id := s.store.seq + 1, timestamp := t,
                activity := "إجابة: نعم" ++ noteSuffix s.note_input,
                productivity_score := 1 }], by simp [step, handle_yes, log_activity]⟩
  | answer_no t =>
      exact ⟨[{ id := s.store.seq + 1, timestamp := t,
                activity := "إجابة: لا" ++ noteSuffix s.note_input,
                productivity_score := 0 }], by simp [step, handle_no, log_activity]⟩
  | add_task =>
      refine ⟨[], ?_⟩
      simp only [List.append_nil, step, add_task]
      split <;> rfl
  | input_task txt => exact ⟨[], by simp [step]⟩
  | input_note txt => exact ⟨[], by simp [step]⟩
  | delete_task i => exact ⟨[], by simp [step, delete_task]⟩

/-! ### The claims -/

/-- C1: the check-in event is emitted by a tick exactly when, immediately
after the increment, `worked_seconds` is a positive exact multiple of 900;
a tick while paused changes nothing and fires nothing; and along any run
every fired value is a positive multiple of 900 and the fired values are
strictly increasing, so each crossed multiple fires at most once even if
the loop re-evaluates at the same value. -/
theorem checkin_fires_exactly_at_multiples (s : AppState) (ops : List Op) :
    ((tick s).2 = true ↔
        s.is_working = true ∧ 0 < s.worked_seconds + 1 ∧
          (s.worked_seconds + 1) % 900 = 0)
    ∧ (s.is_working = false → tick s = (s, false))
    ∧ (∀ v ∈ checkinValues s ops, 0 < v ∧ v % 900 = 0)
    ∧ (checkinValues s ops).Pairwise (· < ·) := by
  have h900 : CHECK_IN_INTERVAL = 900 := by norm_num [CHECK_IN_INTERVAL]
  refine ⟨?_, tick_of_not_working s, ?_, checkinValues_pairwise ops s⟩
  · rw [tick_fires_iff, h900]
    tauto
  · intro v hv
    have h := checkinValues_multiple ops s v hv
    rw [h900] at h
    exact h

theorem checkin_fires_exactly_at_multiples_witness :
    (tick (workingAt 899)).2 = true :=
  (checkin_fires_exactly_at_multiples (workingAt 899) []).1.mpr
    ⟨rfl, by decide, by decide⟩

/-- C2: while working, one tick increments `worked_seconds` by exactly 1,
sets the progress bar to `min (elapsed / (daily_target * 3600)) 1` (hence
never above 1), and renders the display as HH:MM:SS with
`hours = elapsed / 3600`, `minutes = elapsed % 3600 / 60`,
`seconds = elapsed % 60`, each zero-padded to two digits and hours
unbounded; 3725 renders "01:02:05" and 36000 renders "10:00:00". -/
theorem tick_updates_display (s : AppState) (h : s.is_working = true) :
    (tick s).1.worked_seconds = s.worked_seconds + 1
    ∧ (tick s).1.progress_bar =
        min (((s.worked_seconds + 1 : Nat) : ℚ) / ((s.daily_target : ℚ) * 3600)) 1
    ∧ (tick s).1.progress_bar ≤ 1
    ∧ (tick s).1.timer_text =
        pad2 ((s.worked_seconds + 1) / 3600) ++ ":" ++
          pad2 ((s.worked_seconds + 1) % 3600 / 60) ++ ":" ++
          pad2 ((s.worked_seconds + 1) % 60)
    ∧ formatHMS 3725 = "01:02:05" ∧ formatHMS 36000 = "10:00:00" := by
  have hp : (tick s).1.progress_bar =
      min (((s.worked_seconds + 1 : Nat) : ℚ) / ((s.daily_target : ℚ) * 3600)) 1 := by
    simp [tick, h]
  have ht : (tick s).1.timer_text = formatHMS (s.worked_seconds + 1) := by
    simp [tick, h]
  refine ⟨by simp [tick, h], hp, ?_, ?_, rfl, rfl⟩
  · rw [hp]
    exact min_le_right _ _
  · rw [ht, formatHMS_eq]

theorem tick_updates_display_witness :
    (tick (workingAt 3724)).1.timer_text = "01:02:05" := by
  have h := (tick_updates_display (workingAt 3724) rfl).2.2.2.1
  rw [h]
  rfl

/-- C3: across any sequence of public operations `worked_seconds` never
decreases, and a single step changes it exactly when the operation is a
tick delivered while `is_working` holds, in which case it grows by 1. -/
theorem worked_seconds_monotone (s : AppState) (o : Op) (ops : List Op) :
    (step s o).worked_seconds =
        (if o = Op.tick ∧ s.is_working = true then s.worked_seconds + 1
         else s.worked_seconds)
    ∧ s.worked_seconds ≤ (runOps s ops).worked_seconds :=
  ⟨step_worked_seconds s o, runOps_worked_seconds_le ops s⟩

/-- C4: toggling while working pauses without touching `worked_seconds`,
and toggling again while idle resumes, still leaving it unchanged. -/
theorem toggle_preserves_elapsed (s : AppState) (h : s.is_working = true) :
    (toggle s).is_working = false
    ∧ (toggle s).worked_seconds = s.worked_seconds
    ∧ (toggle (toggle s)).is_working = true
    ∧ (toggle (toggle s)).worked_seconds = s.worked_seconds := by
  simp [toggle, h]

theorem toggle_preserves_elapsed_witness :
    (toggle (workingAt 5)).is_working = false
    ∧ (toggle (workingAt 5)).worked_seconds = (workingAt 5).worked_seconds
    ∧ (toggle (toggle (workingAt 5))).is_working = true
    ∧ (toggle (toggle (workingAt 5))).worked_seconds = (workingAt 5).worked_seconds :=
  toggle_preserves_elapsed (workingAt 5) rfl

/-- C5: changing the daily target takes effect only while not working and
only for values in the enumerated set {3, 5, 8, 10, 12}; any other attempt,
in particular 7, leaves the state unchanged. -/
theorem set_target_guarded (s : AppState) (hours : Nat) :
    (s.is_working = true → set_target s hours = s)
    ∧ (hours ∉ ALLOWED_TARGETS → set_target s hours = s)
    ∧ set_target s 7 = s
    ∧ (s.is_working = false → hours ∈ ALLOWED_TARGETS →
        (set_target s hours).daily_target = hours) := by
  have h7 : (7 : Nat) ∉ ALLOWED_TARGETS := by decide
  refine ⟨?_, ?_, ?_, ?_⟩
  · intro h
    simp [set_target, h]
  · intro h
    simp [set_target, h]
  · simp [set_target, h7]
  · intro h1 h2
    simp [set_target, h1, h2]

theorem set_target_guarded_witness :
    set_target (workingAt 3) 8 = workingAt 3
    ∧ set_target initState 7 = initState
    ∧ (set_target initState 8).daily_target = 8 :=
  ⟨(set_target_guarded (workingAt 3) 8).1 rfl,
   (set_target_guarded initState 7).2.2.1,
   (set_target_guarded initState 8).2.2.2 rfl (by decide)⟩

/-- C6: each record call appends exactly one entry carrying the next
AUTOINCREMENT id and the given clock value; two sequential calls give
strictly increasing ids and, the wall clock being monotone, non-decreasing
timestamps; and no public operation removes or rewrites existing entries,
so a scan returns them in insertion order. -/
theorem log_append_only (st : LogStore) (t1 t2 : Nat) (a1 a2 : String)
    (c1 c2 : Nat) (h : t1 ≤ t2) (s : AppState) (o : Op) :
    (log_activity st t1 a1 c1).entries =
        st.entries ++
          [{ id := st.seq + 1, timestamp := t1, activity := a1,
             productivity_score := c1 }]
    ∧ (log_activity (log_activity st t1 a1 c1) t2 a2 c2).entries =
        st.entries ++
          [{ id := st.seq + 1, timestamp := t1, activity := a1,
             productivity_score := c1 },
           { id := st.seq + 1 + 1, timestamp := t2, activity := a2,
             productivity_score := c2 }]
    ∧ st.seq + 1 < st.seq + 1 + 1
    ∧ t1 ≤ t2
    ∧ ∃ tail, (step s o).store.entries = s.store.entries ++ tail := by
  exact ⟨rfl, by simp [log_activity], by omega, h, step_store_append s o⟩

theorem log_append_only_witness :
    (log_activity (log_activity LogStore.empty 10 "a" 1) 20 "b" 0).entries =
      [{ id := 1, timestamp := 10, activity := "a", productivity_score := 1 },
       { id := 2, timestamp := 20, activity := "b", productivity_score := 0 }] := by
  have h :=
    (log_append_only LogStore.empty 10 20 "a" "b" 1 0 (by norm_num) initState Op.toggle).2.1
  simpa [LogStore.empty] using h

/-- C7: with the check-in prompt open while working, answering yes records
one entry with score 1 and answering no records one entry with score 0,
each with an activity string built from the answer and the optional note;
both clear the note field, close the dialog and leave the timer working. -/
theorem answer_resolves_checkin (s : AppState) (t : Nat)
    (hw : s.is_working = true) (_hd : s.dialog_open = true) :
    (handle_yes s t).store.entries =
        s.store.entries ++
          [{ id := s.store.seq + 1, timestamp := t,
             activity := "إجابة: نعم" ++ noteSuffix s.note_input,
             productivity_score := 1 }]
    ∧ (handle_no s t).store.entries =
        s.store.entries ++
          [{ id := s.store.seq + 1, timestamp := t,
             activity := "إجابة: لا" ++ noteSuffix s.note_input,
             productivity_score := 0 }]
    ∧ (handle_yes s t).note_input = "" ∧ (handle_no s t).note_input = ""
    ∧ (handle_yes s t).dialog_open = false ∧ (handle_no s t).dialog_open = false
    ∧ (handle_yes s t).is_working = true ∧ (handle_no s t).is_working = true := by
  exact ⟨by simp [handle_yes, log_activity], by simp [handle_no, log_activity],
    rfl, rfl, rfl, rfl, hw, hw⟩

/-- A working state with the check-in dialog open and a note typed in. -/
def promptState : AppState :=
  { initState with
      is_working := true, worked_seconds := 900, dialog_open := true,
      note_input := "تم" }

theorem answer_resolves_checkin_witness :
    (handle_yes promptState 42).store.entries =
      promptState.store.entries ++
        [{ id := promptState.store.seq + 1, timestamp := 42,
           activity := "إجابة: نعم" ++ noteSuffix promptState.note_input,
           productivity_score := 1 }] :=
  (answer_resolves_checkin promptState 42 rfl rfl).1

/-- C8: toggling while working, even with a prompt open and unanswered,
moves to idle and leaves the log store untouched — the abandoned prompt
writes no entry. -/
theorem abandon_prompt_no_log (s : AppState) (h : s.is_working = true) :
    (toggle s).is_working = false ∧ (toggle s).store = s.store := by
  simp [toggle, h]

theorem abandon_prompt_no_log_witness :
    (toggle promptState).is_working = false
    ∧ (toggle promptState).store = promptState.store :=
  abandon_prompt_no_log promptState rfl

/-- C9: add_task with empty task input is a silent no-op leaving the whole
state unchanged; with non-empty input it appends exactly one task. -/
theorem add_task_empty_noop (s : AppState) :
    (s.task_input = "" → add_task s = s)
    ∧ (s.task_input ≠ "" →
        (add_task s).tasks = s.tasks ++ [{ text := s.task_input, done := false }]) := by
  constructor
  · intro h
    simp [add_task, h]
  · intro h
    simp [add_task, h]

theorem add_task_empty_noop_witness :
    add_task initState = initState
    ∧ (add_task { initState with task_input := "قراءة" }).tasks =
        ({ initState with task_input := "قراءة" } : AppState).tasks ++
          [{ text := ({ initState with task_input := "قراءة" } : AppState).task_input,
             done := false }] :=
  ⟨(add_task_empty_noop initState).1 rfl,
   (add_task_empty_noop { initState with task_input := "قراءة" }).2 (by decide)⟩

/-- C10: deleting any task — including the focused one — never changes the
focus: the stored focus text and the rendered label survive delete_task,
and after the most recent set_focus the label still shows that text once
the task is deleted. -/
theorem delete_task_keeps_focus (s : AppState) (i : Nat) (name : String) :
    (delete_task s i).current_task_focus = s.current_task_focus
    ∧ (delete_task s i).focus_label = s.focus_label
    ∧ (delete_task (set_focus_task s name) i).current_task_focus = name
    ∧ (delete_task (set_focus_task s name) i).focus_label = focusLabelText name :=
  ⟨rfl, rfl, rfl, rfl⟩

end Discipline
